import Mathlib

/-!
Shallow embedding of the call-monitoring core of the repository
(`src/features/callMonitoring.js`, `src/utils/retry.js`).

Modelling conventions:
- JavaScript timestamps (`Date` values) are `Nat` milliseconds since the epoch;
  `new Date()` at a mutation point is threaded in as an explicit `now : Nat`.
- `duration` is computed in seconds as an exact rational
  `(endedAt - createdAt) / 1000`, mirroring the JS float division.
- The duck-typed `event.data` payload is a record with the fields the handlers
  read (`text`, `speaker`, `score`); absent fields default like JS `undefined`
  coerced by the handlers.
- `this.emit(...)` calls are collected into an explicit `Emission` list, in
  program order.
- `setTimeout(() => this.removeCall(callId), 30000)` during a sweep is
  recorded as the call id being appended to a list of scheduled removals.
- The `activeCalls` `Map` is an association list in insertion order;
  `Map.set` on an existing key replaces in place, otherwise appends.
-/

/-- JS error value as inspected by the retry predicate in `_monitorCalls`:
`error.response?.status` (an optional HTTP status) plus a message. -/
structure JsError where
  responseStatus : Option Nat
  msg : String
  deriving DecidableEq, Repr

/-- The duck-typed `event.data` payload, with the fields read by the
handlers in `_processCallEvents` / `_analyzeTranscription`. -/
structure EventData where
  text : String := ""
  speaker : String := ""
  score : ℚ := 0
  deriving DecidableEq, Repr

/-- A call event as stored into `callData.events` by `_processCallEvents`. -/
structure CallEvent where
  id : String
  type : String
  timestamp : Nat
  data : EventData
  deriving DecidableEq, Repr

/-- A sentiment entry pushed by the `call.sentiment` handler. -/
structure SentimentEntry where
  score : ℚ
  timestamp : Nat
  deriving DecidableEq, Repr

/-- The `analytics` sub-record of a call (`addCall` initialises all fields
to zero / empty). -/
structure Analytics where
  talkTime : ℚ
  silenceDuration : ℚ
  interruptions : Nat
  sentimentScores : List SentimentEntry
  deriving DecidableEq, Repr

/-- The `callData` record created by `addCall` and mutated by
`_processCallEvents` and `_monitorCalls`. `status` is a plain string in the
source (values `"initializing"`, `"in-progress"`, `"completed"`, or whatever
a fetched snapshot reports). -/
structure CallRecord where
  id : String
  metadata : List (String × String)
  status : String
  events : List CallEvent
  createdAt : Nat
  lastUpdated : Nat
  answeredAt : Option Nat := none
  endedAt : Option Nat := none
  duration : Option ℚ := none
  transcription : Option String := none
  analytics : Analytics
  deriving DecidableEq, Repr

/-- The `{status, events}` view of a call returned by `vapi.calls.get`. -/
structure CallSnapshot where
  status : String
  events : List CallEvent
  deriving DecidableEq, Repr

/-- One `this.emit(...)` occurrence, tagged by channel, in program order. -/
inductive Emission where
  | callAdded (record : CallRecord)
  | callRemoved (record : CallRecord)
  | callUpdated (record : CallRecord)
  | perType (eventType : String) (callId : String) (event : CallEvent)
  | statusChanged (callId : String) (fromStatus toStatus : String) (timestamp : Nat)
  | errorEvent (e : JsError)
  deriving DecidableEq, Repr

/-- The `activeCalls` map, as an association list in insertion order. -/
def Registry := List (String × CallRecord)

instance : DecidableEq Registry := by
  unfold Registry
  infer_instance

/-- Model of `activeCalls.get(id)` (first binding of the key). -/
def Registry.lookup : Registry → String → Option CallRecord
  | [], _ => none
  | (k, v) :: rest, key => if k == key then some v else Registry.lookup rest key

/-- Model of `activeCalls.has(id)`. -/
def Registry.containsKey (reg : Registry) (key : String) : Bool :=
  (reg.lookup key).isSome

/-- Model of `activeCalls.set(id, v)`: replace in place if the key is present,
otherwise append (JS `Map` preserves insertion order). -/
def Registry.setKey : Registry → String → CallRecord → Registry
  | [], key, v => [(key, v)]
  | (k, w) :: rest, key, v =>
    if k == key then (key, v) :: rest else (k, w) :: Registry.setKey rest key v

/-- Model of `addCall(callId, metadata)` from `callMonitoring.js`: if the id is
already tracked it returns early (JS `return;`, i.e. no record is returned);
otherwise it inserts a fresh record and emits `call:added`.  Returns the new
registry, the JS return value (`none` models `undefined`), and the emissions.
The `startMonitoring` side effect carries no registry state and is omitted. -/
def addCall (now : Nat) (reg : Registry) (callId : String)
    (metadata : List (String × String)) : Registry × Option CallRecord × List Emission :=
  if reg.containsKey callId then
    (reg, none, [])
  else
    let callData : CallRecord :=
      { id := callId
        metadata := metadata
        status := "initializing"
        events := []
        createdAt := now
        lastUpdated := now
        analytics := { talkTime := 0, silenceDuration := 0, interruptions := 0,
                       sentimentScores := [] } }
    (reg.setKey callId callData, some callData, [Emission.callAdded callData])

/-- Model of `removeCall(callId)`: delete the binding and emit `call:removed`
(no-op when untracked).  The `stopMonitoring` side effect is omitted. -/
def removeCall (reg : Registry) (callId : String) : Registry × List Emission :=
  match reg.lookup callId with
  | none => (reg, [])
  | some callData =>
    (reg.filter (fun kv => kv.1 != callId), [Emission.callRemoved callData])

/-- JS `text.split(/\s+/)` on a character list: maximal whitespace runs are
separators; a leading/trailing run contributes an empty field; the empty
string yields one empty field.  `acc` holds the current field reversed,
`inSep` records whether the previous character was part of a separator run. -/
def jsSplitWsAux : List Char → List Char → Bool → List String
  | [], acc, _ => [String.mk acc.reverse]
  | c :: cs, acc, inSep =>
    if c.isWhitespace then
      if inSep then jsSplitWsAux cs acc true
      else String.mk acc.reverse :: jsSplitWsAux cs [] true
    else jsSplitWsAux cs (c :: acc) false

/-- Model of `transcription.text.split(/\s+/).length` from `_analyzeTranscription`. -/
def jsWordCount (text : String) : Nat :=
  (jsSplitWsAux text.data [] false).length

/-- Model of JS `text.endsWith('?')`: the last character is a question mark. -/
def endsWithQuestionMark (text : String) : Bool :=
  text.data.getLast? == some '?'

/-- Model of `_analyzeTranscription(callData, transcription)`: counts an interruption
when the speaker is `"assistant"`, the text ends with `"?"` and is shorter
than 30 characters; adds `(wordCount / 150) * 60` seconds of talk time. -/
def analyzeTranscription (callData : CallRecord) (d : EventData) : CallRecord :=
  let wordCount := jsWordCount d.text
  let isInterruption : Bool :=
    d.speaker == "assistant" && endsWithQuestionMark d.text && decide (d.text.length < 30)
  let analytics₁ :=
    if isInterruption then
      { callData.analytics with interruptions := callData.analytics.interruptions + 1 }
    else callData.analytics
  let analytics₂ :=
    { analytics₁ with talkTime := analytics₁.talkTime + ((wordCount : ℚ) / 150) * 60 }
  { callData with analytics := analytics₂ }

/-- Model of `callData.events.some(e => e.id === event.id)`. -/
def hasEventId (events : List CallEvent) (eventId : String) : Bool :=
  events.any (fun e => e.id == eventId)

/-- The body of the `for (const event of events)` loop in
`_processCallEvents`, for one event: skip if the id was already processed;
otherwise apply the type-specific handler, append the event to
`callData.events`, set `lastUpdated`, and emit `call:<type>`. -/
def applyEvent (now : Nat) (callData : CallRecord) (event : CallEvent) :
    CallRecord × List Emission :=
  if hasEventId callData.events event.id then
    (callData, [])
  else
    let callData₁ :=
      if event.type == "call.answered" then
        { callData with status := "in-progress", answeredAt := some event.timestamp }
      else if event.type == "call.ended" then
        { callData with status := "completed"
                        endedAt := some event.timestamp
                        duration := some ((((event.timestamp : ℤ) - (callData.createdAt : ℤ) : ℤ) : ℚ) / 1000) }
      else if event.type == "call.transcription" then
        analyzeTranscription { callData with transcription := some event.data.text } event.data
      else if event.type == "call.sentiment" then
        { callData with analytics :=
            { callData.analytics with sentimentScores :=
                callData.analytics.sentimentScores ++
                  [{ score := event.data.score, timestamp := event.timestamp }] } }
      else callData
    let callData₂ :=
      { callData₁ with
          events := callData₁.events ++
            [{ id := event.id, type := event.type, timestamp := event.timestamp,
               data := event.data }]
          lastUpdated := now }
    (callData₂, [Emission.perType event.type callData.id event])

/-- The whole event loop of `_processCallEvents`, threading the record. -/
def processEventsLoop (now : Nat) (callData : CallRecord) :
    List CallEvent → CallRecord × List Emission
  | [] => (callData, [])
  | e :: es =>
    let step := applyEvent now callData e
    let rest := processEventsLoop now step.1 es
    (rest.1, step.2 ++ rest.2)

/-- Model of `_processCallEvents(callId, events)`: early return when the call is not
tracked; otherwise run the event loop on the record and finish with a
`call:updated` emission carrying the (mutated) record. -/
def processCallEvents (now : Nat) (reg : Registry) (callId : String)
    (events : List CallEvent) : Registry × List Emission :=
  match reg.lookup callId with
  | none => (reg, [])
  | some callData =>
    let result := processEventsLoop now callData events
    (reg.setKey callId result.1, result.2 ++ [Emission.callUpdated result.1])

/-!
## Backoff Executor (`src/utils/retry.js`)

`retry(fn, {maxRetries, initialDelay, shouldRetry})` is modelled by an
outcome-indexed operation `op : Nat → Except JsError α` giving the result of
the k-th invocation (k = the JS `retries` counter), and an explicit jitter
sequence `jitter : Nat → ℚ` standing for `Math.random() * 0.2 * delay` at
attempt k (the source draws it in `[0, 0.2 × delay)`).  The run returns the
propagated result, the number of invocations of `fn`, and the list of
backoff waits actually slept (each `initialDelay * 2^retries + jitter`). -/

/-- One frame per remaining loop iteration: `remaining + 1` models
`maxRetries - retries` while the JS `while (retries < maxRetries)` guard
holds; `remaining == 0` in the error branch is exactly the source's
`retries === maxRetries - 1` check.  When the loop is never entered
(`maxRetries = 0`) the source throws `lastError || new Error('Retry failed')`
with `lastError` undefined. -/
def retryAux (op : Nat → Except JsError α) (shouldRetry : JsError → Bool)
    (initialDelay : Nat) (jitter : Nat → ℚ) :
    Nat → Nat → Except JsError α × Nat × List ℚ
  | _retries, 0 => (Except.error { responseStatus := none, msg := "Retry failed" }, 0, [])
  | retries, remaining + 1 =>
    match op retries with
    | Except.ok a => (Except.ok a, 1, [])
    | Except.error e =>
      if !shouldRetry e || remaining == 0 then (Except.error e, 1, [])
      else
        let delay : ℚ := (initialDelay : ℚ) * 2 ^ retries + jitter retries
        let rest := retryAux op shouldRetry initialDelay jitter (retries + 1) remaining
        (rest.1, rest.2.1 + 1, delay :: rest.2.2)

/-- Model of `retry(fn, options)`: run the loop from `retries = 0` with
`maxRetries` iterations available. -/
def retryRun (op : Nat → Except JsError α) (shouldRetry : JsError → Bool)
    (initialDelay : Nat) (jitter : Nat → ℚ) (maxRetries : Nat) :
    Except JsError α × Nat × List ℚ :=
  retryAux op shouldRetry initialDelay jitter 0 maxRetries

/-- The `shouldRetry` predicate `_monitorCalls` passes to `retry`:
`error.response?.status !== 404`. -/
def notFoundShouldRetry (e : JsError) : Bool :=
  e.responseStatus != some 404

/-!
## Polling Scheduler sweep (`_monitorCalls` in `callMonitoring.js`)

A sweep iterates the tracked call ids; `fetch` is the outcome of
`retry(() => this.vapi.calls.get(callId), ...)` for each id — an error value
means the retry budget was exhausted (or retrying was suppressed) and the
inner `catch` runs.  A sweep step returns the new registry, the emissions,
and the call ids for which `setTimeout(() => this.removeCall(callId), 30000)`
was scheduled. -/

/-- One iteration of the `for (const [callId, callData] of ...)` loop. -/
def monitorStep (now : Nat) (fetch : String → Except JsError CallSnapshot)
    (reg : Registry) (callId : String) : Registry × List Emission × List String :=
  match reg.lookup callId with
  | none => (reg, [], [])
  | some callData =>
    if callData.status == "completed" then
      (reg, [], [])
    else
      match fetch callId with
      | Except.error e => (reg, [Emission.errorEvent e], [])
      | Except.ok call =>
        let statusPart :
            CallRecord × List Emission :=
          if call.status != callData.status then
            ({ callData with status := call.status },
             [Emission.statusChanged callId callData.status call.status now])
          else (callData, [])
        let reg₁ := reg.setKey callId statusPart.1
        let eventsPart :=
          if decide (0 < call.events.length) then
            processCallEvents now reg₁ callId call.events
          else (reg₁, [])
        let finalStatus :=
          match eventsPart.1.lookup callId with
          | some r => r.status
          | none => statusPart.1.status
        let scheduled :=
          if call.status == "completed" && finalStatus != "completed" then [callId]
          else []
        (eventsPart.1, statusPart.2 ++ eventsPart.2, scheduled)

/-- The whole sweep: iterate over the snapshot of tracked ids, threading the
registry; per-call failures are caught inside the loop, so every id is
processed. -/
def monitorCalls (now : Nat) (fetch : String → Except JsError CallSnapshot) :
    List String → Registry → Registry × List Emission × List String
  | [], reg => (reg, [], [])
  | c :: cs, reg =>
    let step := monitorStep now fetch reg c
    let rest := monitorCalls now fetch cs step.1
    (rest.1, step.2.1 ++ rest.2.1, step.2.2 ++ rest.2.2)

/-!
## Fixtures: concrete records, events and snapshots used by the
counterexamples and witnesses below.
-/

/-- A record exactly as `addCall` creates it at time 1000 for id `"c1"`. -/
def rInit : CallRecord :=
  { id := "c1", metadata := [], status := "initializing", events := [], createdAt := 1000,
    lastUpdated := 1000,
    analytics := { talkTime := 0, silenceDuration := 0, interruptions := 0, sentimentScores := [] } }

/-- The same record after an answered transition. -/
def rInProgress : CallRecord := { rInit with status := "in-progress" }

/-- The same record in terminal state. -/
def rCompleted : CallRecord := { rInit with status := "completed" }

/-- An answered event. -/
def evAnswered1 : CallEvent :=
  { id := "e1", type := "call.answered", timestamp := 2000, data := {} }

/-- A transcription payload with two words, spoken by the user. -/
def transcriptionData1 : EventData := { text := "Hi there", speaker := "user" }

/-- A transcription event. -/
def evTranscription1 : CallEvent :=
  { id := "e2", type := "call.transcription", timestamp := 3000, data := transcriptionData1 }

/-- An ended event. -/
def evEnded1 : CallEvent :=
  { id := "e3", type := "call.ended", timestamp := 62000, data := {} }

/-- A fetch outcome that always fails with a plain (non-404) error. -/
def fetchAlwaysFails : String → Except JsError CallSnapshot :=
  fun _ => Except.error { responseStatus := some 500, msg := "boom" }

/-- A fetch outcome that always reports a completed snapshot with no events. -/
def fetchCompletedEmpty : String → Except JsError CallSnapshot :=
  fun _ => Except.ok { status := "completed", events := [] }

/-!
## Helper lemmas
-/

/-- Classifier for `call:status_changed` emissions. -/
def Emission.isStatusChanged : Emission → Bool
  | Emission.statusChanged _ _ _ _ => true
  | _ => false

/-- Classifier for per-event-type (`call:<type>`) emissions. -/
def Emission.isPerType : Emission → Bool
  | Emission.perType _ _ _ => true
  | _ => false

/-- Number of `call:status_changed` emissions in a list. -/
def countStatusChanged (ems : List Emission) : Nat :=
  (ems.filter Emission.isStatusChanged).length

/-- Number of per-event-type emissions in a list. -/
def countPerType (ems : List Emission) : Nat :=
  (ems.filter Emission.isPerType).length

/-- Replaying an already-recorded event id is skipped entirely. -/
theorem applyEvent_dup (now : Nat) (r : CallRecord) (e : CallEvent)
    (h : hasEventId r.events e.id = true) : applyEvent now r e = (r, []) := by
  simp [applyEvent, h]

/-- A batch made only of already-recorded event ids is a no-op on the
record and emits nothing from the loop body. -/
theorem processEventsLoop_dup (now : Nat) :
    ∀ (es : List CallEvent) (r : CallRecord),
      (∀ e ∈ es, hasEventId r.events e.id = true) →
      processEventsLoop now r es = (r, []) := by
  intro es
  induction es with
  | nil => intro r _; rfl
  | cons e es ih =>
    intro r h
    have he : hasEventId r.events e.id = true := h e (List.mem_cons_self e es)
    have hrest : ∀ e' ∈ es, hasEventId r.events e'.id = true :=
      fun e' he' => h e' (List.mem_cons_of_mem e he')
    simp [processEventsLoop, applyEvent_dup now r e he, ih r hrest]

/-- The event loop body never produces a `call:status_changed` emission. -/
theorem applyEvent_not_statusChanged (now : Nat) (r : CallRecord) (e : CallEvent) :
    ∀ x ∈ (applyEvent now r e).2, x.isStatusChanged = false := by
  intro x hx
  rw [applyEvent] at hx
  split at hx
  · simp at hx
  · simp at hx
    subst hx
    rfl

/-- The whole event loop never produces a `call:status_changed` emission. -/
theorem processEventsLoop_not_statusChanged (now : Nat) :
    ∀ (es : List CallEvent) (r : CallRecord),
      ∀ x ∈ (processEventsLoop now r es).2, x.isStatusChanged = false := by
  intro es
  induction es with
  | nil => intro r x hx; simp [processEventsLoop] at hx
  | cons e es ih =>
    intro r x hx
    rw [processEventsLoop] at hx
    rcases List.mem_append.mp hx with h1 | h2
    · exact applyEvent_not_statusChanged now r e x h1
    · exact ih (applyEvent now r e).1 x h2

/-- Writing back the value already bound to a key leaves the map unchanged. -/
theorem Registry.setKey_lookup_self :
    ∀ (reg : List (String × CallRecord)) (k : String) (v : CallRecord),
      Registry.lookup reg k = some v → Registry.setKey reg k v = reg := by
  intro reg
  induction reg with
  | nil => intro k v h; simp [Registry.lookup] at h
  | cons kv rest ih =>
    intro k v h
    obtain ⟨k', w⟩ := kv
    rw [Registry.lookup] at h
    rw [Registry.setKey]
    by_cases hk : (k' == k) = true
    · have hkk : k' = k := by simpa using hk
      subst hkk
      rw [if_pos hk] at h ⊢
      have hwv : w = v := Option.some.inj h
      rw [hwv]
    · rw [if_neg hk] at h ⊢
      rw [ih k v h]

/-!
## Claims
-/

/-- C10: ingesting events for a call id that is not present in the registry
is a total no-op — the registry is unchanged and no notification at all
(not even `call:updated`) is emitted. -/
theorem C10_untracked_ingest_noop (now : Nat) (reg : Registry) (callId : String)
    (events : List CallEvent) (h : Registry.lookup reg callId = none) :
    processCallEvents now reg callId events = (reg, []) := by
  simp [processCallEvents, h]

/-- Witness for C10 at a concrete input: the empty registry tracks nothing. -/
theorem C10_untracked_ingest_noop_witness :
    Registry.lookup [] "c1" = none ∧
    processCallEvents 7 [] "c1" [evAnswered1] = ([], []) :=
  ⟨rfl, C10_untracked_ingest_noop 7 [] "c1" [evAnswered1] rfl⟩

/-- C3 (counterexample): with `"c1"` already tracked (bound to `rInit`),
`addCall` returns no record at all (JS `return;` yields `undefined`), so it
does not return the existing record unchanged as the claim states. -/
theorem C3_counterexample :
    Registry.lookup [("c1", rInit)] "c1" = some rInit ∧
    (addCall 7 [("c1", rInit)] "c1" []).2.1 = none ∧
    (none : Option CallRecord) ≠ some rInit := by
  refine ⟨rfl, rfl, ?_⟩
  intro h
  exact Option.noConfusion h

/-- C3 (amended): registering an already-tracked call id leaves the
registry unchanged (one record), emits nothing, and returns no value
(`undefined`), not the existing record. -/
theorem C3_amended_add_idempotent (now : Nat) (reg : Registry) (callId : String)
    (metadata : List (String × String)) (h : Registry.containsKey reg callId = true) :
    addCall now reg callId metadata = (reg, none, []) := by
  simp [addCall, h]

/-- Witness for the amended C3 at a concrete input. -/
theorem C3_amended_add_idempotent_witness :
    Registry.containsKey [("c1", rInit)] "c1" = true ∧
    addCall 7 [("c1", rInit)] "c1" [] = ([("c1", rInit)], none, []) :=
  ⟨rfl, C3_amended_add_idempotent 7 [("c1", rInit)] "c1" [] rfl⟩

/-- C2 (code behavior at the failing input): the cached record for `"c1"`
is `in-progress`, the fetched snapshot is `completed` with no events, yet
the sweep step schedules no delayed removal (the guard compares the
snapshot status against the cached status it has already overwritten), even
though the registry now holds the call as `completed`. -/
theorem C2_no_removal_scheduled :
    rInProgress.status ≠ "completed" ∧
    fetchCompletedEmpty "c1" = Except.ok { status := "completed", events := [] } ∧
    (monitorStep 9000 fetchCompletedEmpty [("c1", rInProgress)] "c1").2.2 = [] ∧
    Option.map CallRecord.status
        (Registry.lookup (monitorStep 9000 fetchCompletedEmpty [("c1", rInProgress)] "c1").1 "c1")
      = some "completed" := by
  refine ⟨?_, rfl, ?_, ?_⟩
  · decide
  · rfl
  · rfl

/-- C7: redelivering events whose ids are already present in the call's
event log leaves the registry (hence the record: events length, analytics,
status, and every timestamp) unchanged; the only emission is the trailing
`call:updated` carrying the unchanged record. -/
theorem C7_dedup_noop (now : Nat) (reg : Registry) (callId : String)
    (events : List CallEvent) (r : CallRecord)
    (hr : Registry.lookup reg callId = some r)
    (hdup : ∀ e ∈ events, hasEventId r.events e.id = true) :
    (processCallEvents now reg callId events).1 = reg ∧
    (processCallEvents now reg callId events).2 = [Emission.callUpdated r] := by
  have hloop := processEventsLoop_dup now events r hdup
  constructor
  · simp [processCallEvents, hr, hloop, Registry.setKey_lookup_self reg callId r hr]
  · simp [processCallEvents, hr, hloop]

/-- Witness for C7 at a concrete input: a record that has already seen
`e1` ignores the redelivery of `e1`. -/
theorem C7_dedup_noop_witness :
    Registry.lookup [("c1", { rInProgress with events := [evAnswered1] })] "c1"
      = some { rInProgress with events := [evAnswered1] } ∧
    (∀ e ∈ [evAnswered1],
      hasEventId ({ rInProgress with events := [evAnswered1] } : CallRecord).events e.id = true) ∧
    (processCallEvents 9999 [("c1", { rInProgress with events := [evAnswered1] })] "c1"
        [evAnswered1]).1
      = [("c1", { rInProgress with events := [evAnswered1] })] ∧
    (processCallEvents 9999 [("c1", { rInProgress with events := [evAnswered1] })] "c1"
        [evAnswered1]).2
      = [Emission.callUpdated { rInProgress with events := [evAnswered1] }] := by
  refine ⟨rfl, by decide, ?_⟩
  exact C7_dedup_noop 9999 [("c1", { rInProgress with events := [evAnswered1] })] "c1"
    [evAnswered1] { rInProgress with events := [evAnswered1] } rfl (by decide)

/-- C1 (counterexample): status does regress under delayed delivery. For the
tracked call `"c1"` (fresh record `rInit`), ingesting the ended event alone
reaches `completed`, but ingesting the permutation where a delayed answered
event (fresh id `e1`) arrives after the ended event (`e3`) leaves the record
back at `in-progress`: the transition logic applies event types without a
monotonicity guard. -/
theorem C1_counterexample :
    Option.map CallRecord.status
        (Registry.lookup (processCallEvents 100 [("c1", rInit)] "c1" [evEnded1]).1 "c1")
      = some "completed" ∧
    Option.map CallRecord.status
        (Registry.lookup
          (processCallEvents 100 [("c1", rInit)] "c1" [evEnded1, evAnswered1]).1 "c1")
      = some "in-progress" ∧
    ("in-progress" : String) ≠ "completed" := by
  refine ⟨rfl, rfl, by decide⟩

/-- C1 (amended): status never regresses under duplicated delivery — a batch
made of already-seen event ids leaves the status unchanged — and the polling
sweep never touches a call whose cached status is `completed` (it is skipped,
with no emission and no scheduled removal).  Delayed delivery of a fresh
answered event after an ended event, however, does regress the status (see
the counterexample). -/
theorem C1_amended_status_monotone :
    (∀ (now : Nat) (r : CallRecord) (es : List CallEvent),
        (∀ e ∈ es, hasEventId r.events e.id = true) →
        ((processEventsLoop now r es).1).status = r.status) ∧
    (∀ (now : Nat) (fetch : String → Except JsError CallSnapshot) (reg : Registry)
        (callId : String) (r : CallRecord),
        Registry.lookup reg callId = some r → r.status = "completed" →
        monitorStep now fetch reg callId = (reg, [], [])) := by
  constructor
  · intro now r es h
    rw [processEventsLoop_dup now es r h]
  · intro now fetch reg callId r hr hs
    simp [monitorStep, hr, hs]

/-- Witness for the amended C1 at concrete inputs. -/
theorem C1_amended_status_monotone_witness :
    (∀ e ∈ [evAnswered1],
      hasEventId ({ rInProgress with events := [evAnswered1] } : CallRecord).events e.id = true) ∧
    ((processEventsLoop 5 { rInProgress with events := [evAnswered1] } [evAnswered1]).1).status
      = ({ rInProgress with events := [evAnswered1] } : CallRecord).status ∧
    Registry.lookup [("c1", rCompleted)] "c1" = some rCompleted ∧
    rCompleted.status = "completed" ∧
    monitorStep 5 fetchAlwaysFails [("c1", rCompleted)] "c1" = ([("c1", rCompleted)], [], []) := by
  refine ⟨by decide, ?_, rfl, rfl, ?_⟩
  · exact C1_amended_status_monotone.1 5 { rInProgress with events := [evAnswered1] }
      [evAnswered1] (by decide)
  · exact C1_amended_status_monotone.2 5 fetchAlwaysFails [("c1", rCompleted)] "c1"
      rCompleted rfl rfl

/-- C4 (counterexample): ingesting an answered event for the tracked call
`"c1"` changes the computed status from `initializing` to `in-progress`,
yet the ingestion emits zero `call:status_changed` notifications — direct
event processing never emits one (only the polling sweep does). -/
theorem C4_counterexample :
    Option.map CallRecord.status (Registry.lookup [("c1", rInit)] "c1")
      = some "initializing" ∧
    Option.map CallRecord.status
        (Registry.lookup (processCallEvents 50 [("c1", rInit)] "c1" [evAnswered1]).1 "c1")
      = some "in-progress" ∧
    countStatusChanged (processCallEvents 50 [("c1", rInit)] "c1" [evAnswered1]).2 = 0 := by
  exact ⟨rfl, rfl, rfl⟩

/-- C4 (amended): after ingesting a batch for a tracked call, the last
notification emitted is `call:updated` carrying the full post-batch record;
no `call:status_changed` notification is ever emitted by ingestion, even
when the computed status differs from the pre-batch status (those come only
from the polling sweep). -/
theorem C4_amended_ingest_emissions (now : Nat) (reg : Registry) (callId : String)
    (events : List CallEvent) (r : CallRecord)
    (hr : Registry.lookup reg callId = some r) :
    ((processCallEvents now reg callId events).2).getLast?
      = some (Emission.callUpdated (processEventsLoop now r events).1) ∧
    countStatusChanged (processCallEvents now reg callId events).2 = 0 := by
  constructor
  · simp [processCallEvents, hr]
  · have hmem : ∀ x ∈ (processEventsLoop now r events).2
        ++ [Emission.callUpdated (processEventsLoop now r events).1],
        x.isStatusChanged = false := by
      intro x hx
      rcases List.mem_append.mp hx with h1 | h2
      · exact processEventsLoop_not_statusChanged now events r x h1
      · simp at h2
        subst h2
        rfl
    have hfil : ((processEventsLoop now r events).2
        ++ [Emission.callUpdated (processEventsLoop now r events).1]).filter
          Emission.isStatusChanged = [] := by
      rw [List.filter_eq_nil_iff]
      intro a ha
      simp [hmem a ha]
    simp [processCallEvents, hr, countStatusChanged, hfil]

/-- Witness for the amended C4 at a concrete input. -/
theorem C4_amended_ingest_emissions_witness :
    Registry.lookup [("c1", rInit)] "c1" = some rInit ∧
    ((processCallEvents 50 [("c1", rInit)] "c1" [evAnswered1]).2).getLast?
      = some (Emission.callUpdated (processEventsLoop 50 rInit [evAnswered1]).1) ∧
    countStatusChanged (processCallEvents 50 [("c1", rInit)] "c1" [evAnswered1]).2 = 0 :=
  ⟨rfl, C4_amended_ingest_emissions 50 [("c1", rInit)] "c1" [evAnswered1] rInit rfl⟩

/-- The retry loop never invokes the operation more often than it has loop
iterations available. -/
theorem retryAux_attempts_le {α : Type} (op : Nat → Except JsError α)
    (shouldRetry : JsError → Bool) (initialDelay : Nat) (jitter : Nat → ℚ) :
    ∀ (remaining retries : Nat),
      (retryAux op shouldRetry initialDelay jitter retries remaining).2.1 ≤ remaining := by
  intro remaining
  induction remaining with
  | zero => intro retries; simp [retryAux]
  | succ n ih =>
    intro retries
    rw [retryAux]
    cases hop : op retries with
    | ok a => simp
    | error e =>
      by_cases hc : (!shouldRetry e || n == 0) = true
      · simp [hc]
      · simp only [Bool.not_eq_true] at hc
        simp only [hc, Bool.false_eq_true, if_false]
        have hrec := ih (retries + 1)
        omega

/-- C5: with `maxRetries = 3` and `initialDelay = 1000` the Backoff Executor
invokes the operation at most 3 times for every operation; when all three
attempts fail (under the default always-retry predicate) it makes exactly 3
attempts, sleeps exactly twice — `1000 + jitter` before the second attempt
and `2000 + jitter` before the third, never after the last — each sleep at
least its exponential base and at most 20% above it, and propagates the
third attempt's error unchanged. -/
theorem C5_backoff_timing {α : Type} (op : Nat → Except JsError α) (jitter : Nat → ℚ)
    (e₀ e₁ e₂ : JsError)
    (h₀ : op 0 = Except.error e₀) (h₁ : op 1 = Except.error e₁)
    (h₂ : op 2 = Except.error e₂)
    (hj₀ : 0 ≤ jitter 0) (hj₁ : 0 ≤ jitter 1)
    (hb₀ : jitter 0 ≤ 1000 / 5) (hb₁ : jitter 1 ≤ 2000 / 5) :
    (∀ (op' : Nat → Except JsError α),
      (retryRun op' (fun _ => true) 1000 jitter 3).2.1 ≤ 3) ∧
    (retryRun op (fun _ => true) 1000 jitter 3).2.1 = 3 ∧
    (retryRun op (fun _ => true) 1000 jitter 3).1 = Except.error e₂ ∧
    (retryRun op (fun _ => true) 1000 jitter 3).2.2
      = [1000 + jitter 0, 2000 + jitter 1] ∧
    (1000 : ℚ) ≤ 1000 + jitter 0 ∧ 1000 + jitter 0 ≤ 1200 ∧
    (2000 : ℚ) ≤ 2000 + jitter 1 ∧ 2000 + jitter 1 ≤ 2400 := by
  refine ⟨fun op' => retryAux_attempts_le op' (fun _ => true) 1000 jitter 3 0, ?_⟩
  have hrun : retryRun op (fun _ => true) 1000 jitter 3
      = (Except.error e₂, 3, [1000 + jitter 0, 2000 + jitter 1]) := by
    rw [retryRun, retryAux, h₀]
    rw [retryAux, h₁]
    rw [retryAux, h₂]
    norm_num
  rw [hrun]
  refine ⟨rfl, rfl, rfl, by linarith, by linarith, by linarith, by linarith⟩

/-- An operation that fails on every attempt with the same plain error. -/
def failingOp : Nat → Except JsError Nat :=
  fun _ => Except.error { responseStatus := some 500, msg := "boom" }

/-- Witness for C5 at a concrete input: `failingOp` with zero jitter. -/
theorem C5_backoff_timing_witness :
    (failingOp 0 = Except.error { responseStatus := some 500, msg := "boom" } ∧
     failingOp 1 = Except.error { responseStatus := some 500, msg := "boom" } ∧
     failingOp 2 = Except.error { responseStatus := some 500, msg := "boom" } ∧
     (0 : ℚ) ≤ (fun _ : Nat => (0 : ℚ)) 0 ∧
     (fun _ : Nat => (0 : ℚ)) 0 ≤ 1000 / 5) ∧
    ((∀ (op' : Nat → Except JsError Nat),
        (retryRun op' (fun _ => true) 1000 (fun _ : Nat => (0 : ℚ)) 3).2.1 ≤ 3) ∧
      (retryRun failingOp (fun _ => true) 1000 (fun _ : Nat => (0 : ℚ)) 3).2.1 = 3 ∧
      (retryRun failingOp (fun _ => true) 1000 (fun _ : Nat => (0 : ℚ)) 3).1
        = Except.error { responseStatus := some 500, msg := "boom" } ∧
      (retryRun failingOp (fun _ => true) 1000 (fun _ : Nat => (0 : ℚ)) 3).2.2
        = [1000 + (fun _ : Nat => (0 : ℚ)) 0, 2000 + (fun _ : Nat => (0 : ℚ)) 1] ∧
      (1000 : ℚ) ≤ 1000 + (fun _ : Nat => (0 : ℚ)) 0 ∧
      1000 + (fun _ : Nat => (0 : ℚ)) 0 ≤ 1200 ∧
      (2000 : ℚ) ≤ 2000 + (fun _ : Nat => (0 : ℚ)) 1 ∧
      2000 + (fun _ : Nat => (0 : ℚ)) 1 ≤ 2400) :=
  ⟨⟨rfl, rfl, rfl, by norm_num, by norm_num⟩,
   C5_backoff_timing failingOp (fun _ : Nat => (0 : ℚ)) _ _ _ rfl rfl rfl
     (by norm_num) (by norm_num) (by norm_num) (by norm_num)⟩

/-- C6: when the first attempt fails with an error the `shouldRetry`
predicate rejects — in the Scheduler's use, a response status of 404 under
`notFoundShouldRetry` — the Backoff Executor makes exactly one attempt and
propagates that error unchanged, with no backoff sleep at all. -/
theorem C6_retry_suppression {α : Type} (op : Nat → Except JsError α)
    (initialDelay maxRetries : Nat) (jitter : Nat → ℚ) (e : JsError)
    (hm : 0 < maxRetries) (h₀ : op 0 = Except.error e)
    (h404 : e.responseStatus = some 404) :
    retryRun op notFoundShouldRetry initialDelay jitter maxRetries
      = (Except.error e, 1, []) := by
  cases maxRetries with
  | zero => exact absurd hm (by simp)
  | succ n =>
    rw [retryRun, retryAux, h₀]
    simp [notFoundShouldRetry, h404]

/-- An operation that fails on every attempt with a 404 error. -/
def notFoundOp : Nat → Except JsError Nat :=
  fun _ => Except.error { responseStatus := some 404, msg := "nf" }

/-- Witness for C6 at a concrete input: a 404-failing operation under the
Scheduler's configuration (`maxRetries = 3`). -/
theorem C6_retry_suppression_witness :
    (0 < 3 ∧
     notFoundOp 0 = Except.error { responseStatus := some 404, msg := "nf" } ∧
     ({ responseStatus := some 404, msg := "nf" } : JsError).responseStatus = some 404) ∧
    retryRun notFoundOp notFoundShouldRetry 1000 (fun _ : Nat => (0 : ℚ)) 3
      = (Except.error { responseStatus := some 404, msg := "nf" }, 1, []) :=
  ⟨⟨by decide, rfl, rfl⟩,
   C6_retry_suppression notFoundOp 1000 3 (fun _ : Nat => (0 : ℚ))
     { responseStatus := some 404, msg := "nf" } (by decide) rfl rfl⟩

/-- An answered event with id `e1` and a parametric timestamp. -/
def scenarioAnswered (t : Nat) : CallEvent :=
  { id := "e1", type := "call.answered", timestamp := t, data := {} }

/-- An ended event with id `e3` and a parametric timestamp. -/
def scenarioEnded (t : Nat) : CallEvent :=
  { id := "e3", type := "call.ended", timestamp := t, data := {} }

/-- Registry state of the end-to-end scenario right after registering
`"c1"` at time `c`. -/
def scenarioReg (c : Nat) : Registry := (addCall c [] "c1" []).1

/-- Scenario batch 1: ingest the answered event (timestamp `T0`) at `n₁`. -/
def scenarioStep1 (c T0 n₁ : Nat) : Registry × List Emission :=
  processCallEvents n₁ (scenarioReg c) "c1" [scenarioAnswered T0]

/-- Scenario batch 2: ingest the two-word user transcription at `n₂`. -/
def scenarioStep2 (c T0 n₁ n₂ : Nat) : Registry × List Emission :=
  processCallEvents n₂ (scenarioStep1 c T0 n₁).1 "c1" [evTranscription1]

/-- Scenario batch 3: ingest the ended event (timestamp `T1`) at `n₃`. -/
def scenarioStep3 (c T0 T1 n₁ n₂ n₃ : Nat) : Registry × List Emission :=
  processCallEvents n₃ (scenarioStep2 c T0 n₁ n₂).1 "c1" [scenarioEnded T1]

/-- C8 (counterexample): in the end-to-end scenario with the call registered
at time 1000, answered at T0 = 2000 and ended at T1 = 62000, the computed
duration is 61 seconds — `(endedAt - createdAt) / 1000`, not
`(T1 - T0) / 1000 = 60` — and the three ingestion batches emit zero
`call:status_changed` notifications, not 3. -/
theorem C8_counterexample :
    Option.map CallRecord.duration
        (Registry.lookup (scenarioStep3 1000 2000 62000 2000 3000 62000).1 "c1")
      = some (some 61) ∧
    ((62000 : ℚ) - 2000) / 1000 = 60 ∧
    (61 : ℚ) ≠ 60 ∧
    countStatusChanged ((scenarioStep1 1000 2000 2000).2
        ++ (scenarioStep2 1000 2000 2000 3000).2
        ++ (scenarioStep3 1000 2000 62000 2000 3000 62000).2) = 0 ∧
    (0 : Nat) ≠ 3 := by
  refine ⟨?_, by norm_num, by norm_num, rfl, by decide⟩
  show some (some ((((62000 : ℤ) - (1000 : ℤ) : ℤ) : ℚ) / 1000)) = some (some 61)
  norm_num

/-- C8 (amended): registering `c1` at time `c` and feeding the three batches
(answered at `T0`, the two-word user transcription, ended at `T1`) drives the
status through `initializing`, `in-progress`, `completed`; the duration is
`(T1 - c) / 1000` seconds (ended timestamp minus record creation time, not
`T1 - T0`); ingestion emits zero `call:status_changed` notifications and one
per-event-type notification per event (3 total); and `talkTime` is
incremented exactly once, by `(2 / 150) * 60 = 4 / 5` seconds. -/
theorem C8_amended_scenario (c T0 T1 n₁ n₂ n₃ : Nat) :
    Option.map CallRecord.status (Registry.lookup (scenarioReg c) "c1")
      = some "initializing" ∧
    Option.map CallRecord.status (Registry.lookup (scenarioStep1 c T0 n₁).1 "c1")
      = some "in-progress" ∧
    Option.map CallRecord.status (Registry.lookup (scenarioStep2 c T0 n₁ n₂).1 "c1")
      = some "in-progress" ∧
    Option.map CallRecord.status (Registry.lookup (scenarioStep3 c T0 T1 n₁ n₂ n₃).1 "c1")
      = some "completed" ∧
    Option.map CallRecord.duration (Registry.lookup (scenarioStep3 c T0 T1 n₁ n₂ n₃).1 "c1")
      = some (some ((((T1 : ℤ) - (c : ℤ) : ℤ) : ℚ) / 1000)) ∧
    countStatusChanged ((scenarioStep1 c T0 n₁).2 ++ (scenarioStep2 c T0 n₁ n₂).2
        ++ (scenarioStep3 c T0 T1 n₁ n₂ n₃).2) = 0 ∧
    countPerType ((scenarioStep1 c T0 n₁).2 ++ (scenarioStep2 c T0 n₁ n₂).2
        ++ (scenarioStep3 c T0 T1 n₁ n₂ n₃).2) = 3 ∧
    Option.map (fun r => r.analytics.talkTime) (Registry.lookup (scenarioStep1 c T0 n₁).1 "c1")
      = some 0 ∧
    Option.map (fun r => r.analytics.talkTime)
        (Registry.lookup (scenarioStep3 c T0 T1 n₁ n₂ n₃).1 "c1")
      = some (4 / 5) := by
  refine ⟨rfl, rfl, rfl, rfl, rfl, rfl, rfl, ?_, ?_⟩
  · show some (0 : ℚ) = some 0
    rfl
  · show some ((0 : ℚ) + ((2 : ℚ) / 150) * 60) = some (4 / 5)
    norm_num

/-- Sweeping a concatenated id list is sweeping the first part, then the
second from the resulting registry, with emissions and scheduled removals
concatenated in order. -/
theorem monitorCalls_append (now : Nat) (fetch : String → Except JsError CallSnapshot) :
    ∀ (l₁ l₂ : List String) (reg : Registry),
      monitorCalls now fetch (l₁ ++ l₂) reg
        = ((monitorCalls now fetch l₂ (monitorCalls now fetch l₁ reg).1).1,
           (monitorCalls now fetch l₁ reg).2.1
             ++ (monitorCalls now fetch l₂ (monitorCalls now fetch l₁ reg).1).2.1,
           (monitorCalls now fetch l₁ reg).2.2
             ++ (monitorCalls now fetch l₂ (monitorCalls now fetch l₁ reg).1).2.2) := by
  intro l₁
  induction l₁ with
  | nil => intro l₂ reg; simp [monitorCalls]
  | cons c cs ih =>
    intro l₂ reg
    simp only [List.cons_append, monitorCalls]
    simp only [List.append_eq]
    rw [ih]
    simp [List.append_assoc]

/-- A sweep iteration whose (retried) fetch fails for a tracked,
non-completed call leaves the registry untouched and emits exactly the
error notification for that call, scheduling nothing. -/
theorem monitorStep_fetch_error (now : Nat)
    (fetch : String → Except JsError CallSnapshot) (reg : Registry) (callId : String)
    (r : CallRecord) (e : JsError)
    (hr : Registry.lookup reg callId = some r) (hs : r.status ≠ "completed")
    (hf : fetch callId = Except.error e) :
    monitorStep now fetch reg callId = (reg, [Emission.errorEvent e], []) := by
  have hs' : (r.status == "completed") = false := by
    simp [hs]
  simp [monitorStep, hr, hs', hf]

/-- C9: if, during a sweep, the fetch for one tracked non-completed call
`b` fails after the retry budget, the sweep emits exactly one error
notification at `b`'s position, leaves `b`'s record untouched, and processes
every call after `b` exactly as it would have from the same registry — one
call's fetch failure never aborts the sweep. -/
theorem C9_sweep_error_isolation (now : Nat)
    (fetch : String → Except JsError CallSnapshot) (ids₁ ids₂ : List String)
    (b : String) (reg : Registry) (r : CallRecord) (e : JsError)
    (hr : Registry.lookup (monitorCalls now fetch ids₁ reg).1 b = some r)
    (hs : r.status ≠ "completed")
    (hf : fetch b = Except.error e) :
    monitorCalls now fetch (ids₁ ++ b :: ids₂) reg
      = ((monitorCalls now fetch ids₂ (monitorCalls now fetch ids₁ reg).1).1,
         (monitorCalls now fetch ids₁ reg).2.1
           ++ Emission.errorEvent e
             :: (monitorCalls now fetch ids₂ (monitorCalls now fetch ids₁ reg).1).2.1,
         (monitorCalls now fetch ids₁ reg).2.2
           ++ (monitorCalls now fetch ids₂ (monitorCalls now fetch ids₁ reg).1).2.2) := by
  rw [monitorCalls_append now fetch ids₁ (b :: ids₂) reg]
  rw [monitorCalls]
  rw [monitorStep_fetch_error now fetch _ b r e hr hs hf]
  simp

/-- Witness for C9 at a concrete input: three tracked calls, every fetch
failing; the failure on `"b"` emits its error and `"c"` is still swept. -/
theorem C9_sweep_error_isolation_witness :
    (Registry.lookup
        (monitorCalls 5 fetchAlwaysFails ["a"]
          [("a", rInit), ("b", rInProgress), ("c", rInit)]).1 "b" = some rInProgress ∧
     rInProgress.status ≠ "completed" ∧
     fetchAlwaysFails "b" = Except.error { responseStatus := some 500, msg := "boom" }) ∧
    monitorCalls 5 fetchAlwaysFails (["a"] ++ "b" :: ["c"])
        [("a", rInit), ("b", rInProgress), ("c", rInit)]
      = ((monitorCalls 5 fetchAlwaysFails ["c"]
            (monitorCalls 5 fetchAlwaysFails ["a"]
              [("a", rInit), ("b", rInProgress), ("c", rInit)]).1).1,
         (monitorCalls 5 fetchAlwaysFails ["a"]
            [("a", rInit), ("b", rInProgress), ("c", rInit)]).2.1
           ++ Emission.errorEvent { responseStatus := some 500, msg := "boom" }
             :: (monitorCalls 5 fetchAlwaysFails ["c"]
                  (monitorCalls 5 fetchAlwaysFails ["a"]
                    [("a", rInit), ("b", rInProgress), ("c", rInit)]).1).2.1,
         (monitorCalls 5 fetchAlwaysFails ["a"]
            [("a", rInit), ("b", rInProgress), ("c", rInit)]).2.2
           ++ (monitorCalls 5 fetchAlwaysFails ["c"]
                (monitorCalls 5 fetchAlwaysFails ["a"]
                  [("a", rInit), ("b", rInProgress), ("c", rInit)]).1).2.2) :=
  ⟨⟨rfl, by decide, rfl⟩,
   C9_sweep_error_isolation 5 fetchAlwaysFails ["a"] ["c"] "b"
     [("a", rInit), ("b", rInProgress), ("c", rInit)] rInProgress
     { responseStatus := some 500, msg := "boom" } rfl (by decide) rfl⟩
